import Mathlib

/-!
Verification of the request-argument resolution code of the `@loopback/rest`
package (`parseOperationArgs` and its helpers) and of the
`AuthMetadataProvider` of `@loopback/authentication`.

The JavaScript values flowing through this code (query values, header
values, path parameters, JSON-parsed request bodies) are modelled by the
`Value` type below: a JSON-like datatype extended with `undefined`.
Property access (`body[name]`) is modelled by `Value.getProp`, which
returns `undefined` on every non-object value; JavaScript truthiness is
modelled by `Value.truthy`.  Numbers are modelled as integers: the code
under verification never computes with numbers, it only tests truthiness.

Errors thrown or rejected with are modelled by `JsError`: either a plain
`Error` (with a message) or an `http-errors` error (with a status code and
a message).  Promises returning `T` that may reject become
`Except JsError T`.

The external JSON body parser `parseJsonBody` (the promisified
`body/json` npm module) is modelled as data: a `ParsedRequest` carries the
outcome `jsonBody` that the parser would produce for this request.  The
`deserialize` function imported from `./deserializer` is not part of the
excerpt; every theorem is universally quantified over it.
-/

/-- A JavaScript/JSON value, extended with `undefined`. -/
inductive Value where
  | undefined : Value
  | null : Value
  | bool : Bool → Value
  | num : Int → Value
  | str : String → Value
  | arr : List Value → Value
  | obj : List (String × Value) → Value

/-- JavaScript truthiness of a `Value` (`undefined`, `null`, `false`, `0`
and the empty string are falsy; arrays and objects are always truthy). -/
def Value.truthy : Value → Bool
  | Value.undefined => false
  | Value.null => false
  | Value.bool b => b
  | Value.num n => n != 0
  | Value.str s => s != ""
  | Value.arr _ => true
  | Value.obj _ => true

/-- Property access `v[name]` on a JSON value: the field of an object when
present, `undefined` otherwise (in particular on every non-object). -/
def Value.getProp : Value → String → Value
  | Value.obj fields, name =>
      match fields.lookup name with
      | some v => v
      | none => Value.undefined
  | _, _ => Value.undefined

/-- Map lookup `m[k]` on a JavaScript object used as a string-keyed map
(the `request.query`, `request.headers` and `pathParams` objects):
`undefined` when the key is absent. -/
def lookupValue (m : List (String × Value)) (k : String) : Value :=
  match m.lookup k with
  | some v => v
  | none => Value.undefined

/-- A thrown/rejected JavaScript error: either a plain `Error` or an
`http-errors` error carrying a status code. -/
inductive JsError where
  | error : String → JsError
  | httpError : Nat → String → JsError

/-- The status code carried by an error, if any. -/
def JsError.statusCodeOf : JsError → Option Nat
  | JsError.error _ => none
  | JsError.httpError code _ => some code

/-- `err.statusCode = 400` — the mutation performed by the `.catch` in
`loadRequestBodyIfNeeded` on the error produced by the JSON body parser. -/
def setStatusCode400 : JsError → JsError
  | JsError.error msg => JsError.httpError 400 msg
  | JsError.httpError _ msg => JsError.httpError 400 msg

/-- `new HttpErrors.UnsupportedMediaType(...)` (status 415). -/
def unsupportedMediaTypeError (contentType : String) : JsError :=
  JsError.httpError 415 ("Content-type " ++ contentType ++ " is not supported.")

/-- `new Error('$ref parameters are not supported yet.')`. -/
def refNotSupportedError : JsError :=
  JsError.error "$ref parameters are not supported yet."

/-- `new HttpErrors.NotImplemented(...)` (status 501) raised for an
unrecognized parameter location. -/
def notImplementedError (source : String) : JsError :=
  JsError.httpError 501
    ("Parameters with \"in: " ++ source ++ "\" are not supported yet.")

/-- An OpenAPI `ParameterObject` as used by this code: only `name` and the
`in` field are read (`in` is a Lean keyword, hence the field name
`paramIn`).  The remaining OpenAPI fields are only passed through to the
external `deserialize` function, which is abstract here. -/
structure ParameterObject where
  name : String
  paramIn : String

/-- One entry of `operationSpec.parameters`: either a `ReferenceObject`
(an object with a `$ref` key, detected by the code via
`'$ref' in paramSpec`) or a plain `ParameterObject`. -/
inductive ParamSpecEntry where
  | ref : String → ParamSpecEntry
  | param : ParameterObject → ParamSpecEntry

/-- An OpenAPI `OperationObject` as used by this code: only the optional
`parameters` list is read. -/
structure OperationObject where
  parameters : Option (List ParamSpecEntry)

/-- `PathParameterValues`: the path-parameter map of the resolved route. -/
def PathParameterValues := List (String × Value)

/-- A `ParsedRequest`: the query map, the header map (Node lowercases
header names before storing them), and the outcome that the external JSON
body parser `parseJsonBody` would produce when run on this request. -/
structure ParsedRequest where
  query : List (String × Value)
  headers : List (String × Value)
  jsonBody : Except JsError Value

/-- A `ResolvedRoute`: the operation spec and the path parameters. -/
structure ResolvedRoute where
  spec : OperationObject
  pathParams : PathParameterValues

/-- `getContentType`: reads `req.headers['content-type']`; returns it when
it is a string, its first element when it is an array, else undefined. -/
def getContentType (req : ParsedRequest) : Option String :=
  match lookupValue req.headers "content-type" with
  | Value.str s => some s
  | Value.arr (Value.str s :: _) => some s
  | _ => none

/-- Does the character list start with the pattern? -/
def charsBeginWith : List Char → List Char → Bool
  | _, [] => true
  | [], _ :: _ => false
  | c :: cs, p :: ps => c == p && charsBeginWith cs ps

/-- Does the character list contain the pattern as a contiguous run? -/
def charsContain : List Char → List Char → Bool
  | [], pat => charsBeginWith [] pat
  | c :: rest, pat => charsBeginWith (c :: rest) pat || charsContain rest pat

/-- `/json/.test(s)`: does `s` contain the substring "json"? -/
def containsJson (s : String) : Bool :=
  charsContain s.data ['j', 's', 'o', 'n']

/-- `name.toLowerCase()`: ASCII-lowercase every character. -/
def lowercaseStr (s : String) : String :=
  String.mk (s.data.map Char.toLower)

/-- `hasArgumentsFromBody`: the spec has a non-`$ref` parameter whose `in`
is `formData` or `body`.  An absent or empty parameter list gives false. -/
def hasArgumentsFromBody (operationSpec : OperationObject) : Bool :=
  match operationSpec.parameters with
  | none => false
  | some params =>
      params.any fun p =>
        match p with
        | ParamSpecEntry.ref _ => false
        | ParamSpecEntry.param q => q.paramIn == "formData" || q.paramIn == "body"

/-- The outcome of `parseJsonBody(request).catch(err => { err.statusCode =
400; return Promise.reject(err); })`. -/
def parseJsonOutcome (request : ParsedRequest) : Except JsError Value :=
  match request.jsonBody with
  | Except.ok v => Except.ok v
  | Except.error e => Except.error (setStatusCode400 e)

/-- `loadRequestBodyIfNeeded`: resolve with `undefined` when no parameter
reads the body; otherwise reject with 415 when the content type is truthy
and does not contain "json", else run the JSON parser, rewriting the
status code of a parse failure to 400. -/
def loadRequestBodyIfNeeded (operationSpec : OperationObject)
    (request : ParsedRequest) : Except JsError Value :=
  if !(hasArgumentsFromBody operationSpec) then Except.ok Value.undefined
  else
    match getContentType request with
    | some contentType =>
        if contentType != "" && !(containsJson contentType) then
          Except.error (unsupportedMediaTypeError contentType)
        else parseJsonOutcome request
    | none => parseJsonOutcome request

/-- Instrumentation of `loadRequestBodyIfNeeded`: control reaches the call
`parseJsonBody(request)` if and only if this returns true.  It mirrors the
control flow of `loadRequestBodyIfNeeded` branch by branch. -/
def bodyWasParsed (operationSpec : OperationObject)
    (request : ParsedRequest) : Bool :=
  if !(hasArgumentsFromBody operationSpec) then false
  else
    match getContentType request with
    | some contentType =>
        if contentType != "" && !(containsJson contentType) then false
        else true
    | none => true

/-- The value pushed for one (non-`$ref`) parameter before
deserialization: the `switch (spec.in)` of `buildOperationArguments`.  The
`default` branch throws `NotImplemented`. -/
def paramArgValue (spec : ParameterObject) (request : ParsedRequest)
    (pathParams : PathParameterValues) (body : Value) : Except JsError Value :=
  if spec.paramIn = "query" then Except.ok (lookupValue request.query spec.name)
  else if spec.paramIn = "path" then Except.ok (lookupValue pathParams spec.name)
  else if spec.paramIn = "header" then
    Except.ok (lookupValue request.headers (lowercaseStr spec.name))
  else if spec.paramIn = "formData" then
    Except.ok (if body.truthy then body.getProp spec.name else Value.undefined)
  else if spec.paramIn = "body" then Except.ok body
  else Except.error (notImplementedError spec.paramIn)

/-- The `for (const paramSpec of operationSpec.parameters || [])` loop of
`buildOperationArguments`: a `$ref` entry throws, otherwise the argument
value is computed, deserialized and pushed; the first throw aborts. -/
def buildArgsLoop (deserialize : Value → ParameterObject → Value)
    (params : List ParamSpecEntry) (request : ParsedRequest)
    (pathParams : PathParameterValues) (body : Value) :
    Except JsError (List Value) :=
  match params with
  | [] => Except.ok []
  | ParamSpecEntry.ref _ :: _ => Except.error refNotSupportedError
  | ParamSpecEntry.param spec :: rest =>
      match paramArgValue spec request pathParams body with
      | Except.error e => Except.error e
      | Except.ok v =>
          match buildArgsLoop deserialize rest request pathParams body with
          | Except.error e => Except.error e
          | Except.ok args => Except.ok (deserialize v spec :: args)

/-- `buildOperationArguments`. -/
def buildOperationArguments (deserialize : Value → ParameterObject → Value)
    (operationSpec : OperationObject) (request : ParsedRequest)
    (pathParams : PathParameterValues) (body : Value) :
    Except JsError (List Value) :=
  buildArgsLoop deserialize (operationSpec.parameters.getD []) request pathParams body

/-- `parseOperationArgs`: load the body if needed, then build the
argument list; a rejection of either stage rejects the whole promise. -/
def parseOperationArgs (deserialize : Value → ParameterObject → Value)
    (request : ParsedRequest) (route : ResolvedRoute) :
    Except JsError (List Value) :=
  match loadRequestBodyIfNeeded route.spec request with
  | Except.error e => Except.error e
  | Except.ok body =>
      buildOperationArguments deserialize route.spec request route.pathParams body

/-! ### The authentication metadata provider

The implementation of `AuthMetadataProvider` (package
`@loopback/authentication`) is not part of the excerpt; only its unit test
is.  It is modelled from the spec below. -/

/-- Modelled from the spec: the `AuthenticationMetadata` object — "an
object with the strategy name and options passed to the decorator". -/
structure AuthenticationMetadata where
  strategy : String
  options : List (String × Value)

/-- Modelled from the spec: the `@authenticate(strategyName, options)`
decorator records an `AuthenticationMetadata` object for the decorated
method. -/
def authenticate (strategyName : String) (options : List (String × Value)) :
    AuthenticationMetadata :=
  AuthenticationMetadata.mk strategyName options

/-- Modelled from the spec: a controller class, reduced to the reflection
metadata its decorated methods carry — for each method name, the
`AuthenticationMetadata` recorded by `@authenticate`, if any. -/
structure ControllerClass where
  authMetadata : List (String × AuthenticationMetadata)

/-- Modelled from the spec: `AuthMetadataProvider.value()` — "given a
class/method pair, return decorator metadata": look up the metadata the
`@authenticate` decorator recorded on that method of that class. -/
def authMetadataProviderValue (controllerClass : ControllerClass)
    (methodName : String) : Option AuthenticationMetadata :=
  controllerClass.authMetadata.lookup methodName

/-- Modelled from the spec: a DI context with the controller class bound
to `CoreBindings.CONTROLLER_CLASS` and the method name bound to
`CoreBindings.CONTROLLER_METHOD_NAME`. -/
structure DIContext where
  controllerClass : ControllerClass
  controllerMethodName : String

/-- Modelled from the spec: resolving the
`CoreBindings.CONTROLLER_METHOD_META` binding, bound
`.toProvider(AuthMetadataProvider)`: the DI container injects the bound
class and method name into the provider and returns `provider.value()`. -/
def resolveControllerMethodMeta (ctx : DIContext) :
    Option AuthenticationMetadata :=
  authMetadataProviderValue ctx.controllerClass ctx.controllerMethodName

/-! ### Claim-side predicates and values -/

/-- The five parameter locations the dispatch switch supports. -/
def supportedIn (s : String) : Bool :=
  s == "query" || s == "path" || s == "header" || s == "formData" || s == "body"

/-- A parameter entry is supported: non-`$ref` with a supported `in`. -/
def entrySupported : ParamSpecEntry → Bool
  | ParamSpecEntry.ref _ => false
  | ParamSpecEntry.param p => supportedIn p.paramIn

/-- All parameters of the spec (absent list counts as empty) are
non-`$ref` with a supported `in`. -/
def specParamsSupported (operationSpec : OperationObject) : Bool :=
  (operationSpec.parameters.getD []).all entrySupported

/-- The entry is a `ReferenceObject`. -/
def isRefEntry : ParamSpecEntry → Bool
  | ParamSpecEntry.ref _ => true
  | ParamSpecEntry.param _ => false

/-- The entry is a plain parameter with an unsupported `in`. -/
def isUnsupportedEntry : ParamSpecEntry → Bool
  | ParamSpecEntry.ref _ => false
  | ParamSpecEntry.param q => !(supportedIn q.paramIn)

/-- The spec's parameter list contains a `$ref` entry. -/
def hasRefParam (operationSpec : OperationObject) : Bool :=
  (operationSpec.parameters.getD []).any isRefEntry

/-- The spec's parameter list contains a non-`$ref` parameter whose `in`
is outside the supported set. -/
def hasUnsupportedIn (operationSpec : OperationObject) : Bool :=
  (operationSpec.parameters.getD []).any isUnsupportedEntry

/-- The truthiness test of the content type followed by the "json"
substring test: the request would be rejected with 415 when a body is
needed. -/
def contentTypeRejected (req : ParsedRequest) : Bool :=
  match getContentType req with
  | some contentType => contentType != "" && !(containsJson contentType)
  | none => false

/-- The per-parameter source value exactly as the claim words it: the
value "drawn from the location named by that parameter's `in`" —
`request.query[name]` for query, `pathParams[name]` for path,
`request.headers[name.toLowerCase()]` for header, `body[name]` for
formData (undefined when no body was parsed, since `getProp` of
`undefined` is `undefined`), and the whole parsed body for body. -/
def claimedSourceValue (spec : ParameterObject) (request : ParsedRequest)
    (pathParams : PathParameterValues) (body : Value) : Value :=
  if spec.paramIn = "query" then lookupValue request.query spec.name
  else if spec.paramIn = "path" then lookupValue pathParams spec.name
  else if spec.paramIn = "header" then lookupValue request.headers (lowercaseStr spec.name)
  else if spec.paramIn = "formData" then body.getProp spec.name
  else if spec.paramIn = "body" then body
  else Value.undefined

/-- The argument list the claim predicts: one deserialized source value
per parameter entry, in spec order. -/
def claimedArgs (deserialize : Value → ParameterObject → Value)
    (params : List ParamSpecEntry) (request : ParsedRequest)
    (pathParams : PathParameterValues) (body : Value) : List Value :=
  params.map fun entry =>
    match entry with
    | ParamSpecEntry.ref _ => Value.undefined
    | ParamSpecEntry.param spec =>
        deserialize (claimedSourceValue spec request pathParams body) spec

/-! ### Sample data used by witnesses and counterexamples -/

/-- A spec with one parameter per supported location. -/
def specAllLocations : OperationObject :=
  OperationObject.mk (some
    [ParamSpecEntry.param (ParameterObject.mk "q" "query"),
     ParamSpecEntry.param (ParameterObject.mk "id" "path"),
     ParamSpecEntry.param (ParameterObject.mk "X-Token" "header"),
     ParamSpecEntry.param (ParameterObject.mk "field" "formData"),
     ParamSpecEntry.param (ParameterObject.mk "data" "body")])

/-- A spec with a single query parameter (no parameter reads the body). -/
def specQueryOnly : OperationObject :=
  OperationObject.mk (some [ParamSpecEntry.param (ParameterObject.mk "q" "query")])

/-- A spec with a single body parameter. -/
def specBodyOnly : OperationObject :=
  OperationObject.mk (some [ParamSpecEntry.param (ParameterObject.mk "data" "body")])

/-- A request with a JSON content type and a parseable object body. -/
def reqJson : ParsedRequest :=
  ParsedRequest.mk
    [("q", Value.str "hello")]
    [("content-type", Value.str "application/json"),
     ("x-token", Value.str "secret")]
    (Except.ok (Value.obj [("field", Value.str "fv"), ("data", Value.num 7)]))

/-- The same request with a different JSON-parser outcome. -/
def reqJsonOtherBody : ParsedRequest :=
  ParsedRequest.mk
    [("q", Value.str "hello")]
    [("content-type", Value.str "application/json"),
     ("x-token", Value.str "secret")]
    (Except.ok (Value.obj [("field", Value.bool true)]))

/-- A request whose content type is XML (would be rejected with 415 when a
body is needed) and whose body would parse fine. -/
def reqXml : ParsedRequest :=
  ParsedRequest.mk [] [("content-type", Value.str "application/xml")]
    (Except.ok (Value.obj []))

/-- A request whose content-type header is present but the empty string,
and whose body parses fine. -/
def reqEmptyContentType : ParsedRequest :=
  ParsedRequest.mk [] [("content-type", Value.str "")]
    (Except.ok (Value.obj [("a", Value.num 1)]))

/-- A request whose body fails to JSON-parse. -/
def reqBadJson : ParsedRequest :=
  ParsedRequest.mk [] [("content-type", Value.str "application/json")]
    (Except.error (JsError.error "Could not parse"))

/-- Sample path parameters. -/
def samplePathParams : PathParameterValues := [("id", Value.str "42")]

/-- A sample deserializer (the theorems hold for every deserializer; the
witnesses use this one). -/
def sampleDeserialize : Value → ParameterObject → Value := fun v _ => v

/-! ### Helper lemmas -/

/-- The guarded form-data access of the code equals the unguarded
`body[name]` of the claim: on every falsy value, `getProp` is already
`undefined`. -/
theorem truthy_getProp (b : Value) (n : String) :
    (if b.truthy then b.getProp n else Value.undefined) = b.getProp n := by
  cases b <;> simp [Value.truthy, Value.getProp]

/-- A supported location is one of the five strings. -/
theorem supportedIn_cases (s : String) (h : supportedIn s = true) :
    s = "query" ∨ s = "path" ∨ s = "header" ∨ s = "formData" ∨ s = "body" := by
  simp [supportedIn, Bool.or_eq_true, beq_iff_eq] at h
  tauto

/-- On a supported parameter the dispatch switch returns exactly the value
the claim names for that location. -/
theorem paramArgValue_of_supported (spec : ParameterObject)
    (request : ParsedRequest) (pathParams : PathParameterValues) (body : Value)
    (h : supportedIn spec.paramIn = true) :
    paramArgValue spec request pathParams body =
      Except.ok (claimedSourceValue spec request pathParams body) := by
  rcases supportedIn_cases _ h with h | h | h | h | h <;>
    simp [paramArgValue, claimedSourceValue, h, truthy_getProp]

/-- On an unsupported location the dispatch switch throws
`NotImplemented`. -/
theorem paramArgValue_of_unsupported (spec : ParameterObject)
    (request : ParsedRequest) (pathParams : PathParameterValues) (body : Value)
    (h : supportedIn spec.paramIn = false) :
    paramArgValue spec request pathParams body =
      Except.error (notImplementedError spec.paramIn) := by
  simp [supportedIn, Bool.or_eq_true, beq_iff_eq] at h
  obtain ⟨⟨⟨⟨h1, h2⟩, h3⟩, h4⟩, h5⟩ := h
  simp [paramArgValue, h1, h2, h3, h4, h5]

/-- When every entry is supported, the loop returns the claimed argument
list. -/
theorem buildArgsLoop_of_all_supported (d : Value → ParameterObject → Value)
    (params : List ParamSpecEntry) (request : ParsedRequest)
    (pathParams : PathParameterValues) (body : Value)
    (h : params.all entrySupported = true) :
    buildArgsLoop d params request pathParams body =
      Except.ok (claimedArgs d params request pathParams body) := by
  induction params with
  | nil => rfl
  | cons p rest ih =>
      cases p with
      | ref r => simp [List.all_cons, entrySupported] at h
      | param spec =>
          rw [List.all_cons] at h
          rcases Bool.and_eq_true_iff.mp h with ⟨hs, hrest⟩
          rw [entrySupported] at hs
          simp [buildArgsLoop, paramArgValue_of_supported _ _ _ _ hs, ih hrest,
            claimedArgs]

/-- A spec with a `$ref` parameter entry. -/
def specWithRef : OperationObject :=
  OperationObject.mk (some
    [ParamSpecEntry.ref "#/parameters/limit",
     ParamSpecEntry.param (ParameterObject.mk "q" "query")])

/-- A spec with a parameter in an unsupported location. -/
def specWithCookieParam : OperationObject :=
  OperationObject.mk (some [ParamSpecEntry.param (ParameterObject.mk "c" "cookie")])

/-- The test file's `TestController`: one method `whoAmI` decorated with
`@authenticate('my-strategy', {option1: 'value1', option2: 'value2'})`. -/
def testController : ControllerClass :=
  ControllerClass.mk
    [("whoAmI", authenticate "my-strategy"
        [("option1", Value.str "value1"), ("option2", Value.str "value2")])]

/-- The test file's `ControllerWithNoMetadata`: no decorated method. -/
def controllerWithNoMetadata : ControllerClass :=
  ControllerClass.mk []

/-- The loop succeeds exactly when every parameter entry is supported. -/
theorem buildArgsLoop_isOk (d : Value → ParameterObject → Value)
    (params : List ParamSpecEntry) (request : ParsedRequest)
    (pathParams : PathParameterValues) (body : Value) :
    (buildArgsLoop d params request pathParams body).isOk =
      params.all entrySupported := by
  induction params with
  | nil => rfl
  | cons p rest ih =>
      cases p with
      | ref r => simp [buildArgsLoop, List.all_cons, entrySupported, isRefEntry,
          Except.isOk, Except.toBool]
      | param spec =>
          by_cases hs : supportedIn spec.paramIn = true
          · rw [buildArgsLoop, paramArgValue_of_supported _ _ _ _ hs]
            cases hrest : buildArgsLoop d rest request pathParams body with
            | ok args =>
                rw [hrest] at ih
                simp [List.all_cons, entrySupported, hs, ← ih, Except.isOk,
                  Except.toBool]
            | error e =>
                rw [hrest] at ih
                simp [List.all_cons, entrySupported, hs, ← ih, Except.isOk,
                  Except.toBool]
          · have hs' : supportedIn spec.paramIn = false := by simpa using hs
            rw [buildArgsLoop, paramArgValue_of_unsupported _ _ _ _ hs']
            simp [List.all_cons, entrySupported, hs', Except.isOk, Except.toBool]

/-- Every error the loop produces is the `$ref` error or a
`NotImplemented` error for an unsupported location. -/
theorem buildArgsLoop_error_shape (d : Value → ParameterObject → Value)
    (params : List ParamSpecEntry) (request : ParsedRequest)
    (pathParams : PathParameterValues) (body : Value) (e : JsError)
    (h : buildArgsLoop d params request pathParams body = Except.error e) :
    e = refNotSupportedError ∨
      ∃ s, supportedIn s = false ∧ e = notImplementedError s := by
  induction params with
  | nil => exact absurd h (by simp [buildArgsLoop])
  | cons p rest ih =>
      cases p with
      | ref r =>
          left
          rw [buildArgsLoop] at h
          exact (Except.error.inj h).symm
      | param spec =>
          by_cases hs : supportedIn spec.paramIn = true
          · rw [buildArgsLoop, paramArgValue_of_supported _ _ _ _ hs] at h
            cases hrest : buildArgsLoop d rest request pathParams body with
            | ok args => rw [hrest] at h; exact absurd h (by simp)
            | error e2 =>
                rw [hrest] at h
                have he : e2 = e := Except.error.inj h
                exact ih (he ▸ hrest)
          · have hs' : supportedIn spec.paramIn = false := by simpa using hs
            rw [buildArgsLoop, paramArgValue_of_unsupported _ _ _ _ hs'] at h
            exact Or.inr ⟨spec.paramIn, hs', (Except.error.inj h).symm⟩

/-- Entry-wise classification: not supported = `$ref` or unsupported
location. -/
theorem entrySupported_false_iff (p : ParamSpecEntry) :
    entrySupported p = false ↔ (isRefEntry p = true ∨ isUnsupportedEntry p = true) := by
  cases p <;> simp [entrySupported, isRefEntry, isUnsupportedEntry]

/-- List-wise classification: some entry unsupported = some `$ref` entry
or some parameter with an unsupported location. -/
theorem all_entrySupported_false_iff (params : List ParamSpecEntry) :
    params.all entrySupported = false ↔
      (params.any isRefEntry = true ∨ params.any isUnsupportedEntry = true) := by
  induction params with
  | nil => simp
  | cons p rest ih =>
      rw [List.all_cons, List.any_cons, List.any_cons]
      cases hp : entrySupported p
      · have hclass := (entrySupported_false_iff p).mp hp
        simp only [Bool.false_and]
        constructor
        · intro _
          rcases hclass with h | h
          · exact Or.inl (by rw [h]; simp)
          · exact Or.inr (by rw [h]; simp)
        · intro _
          trivial
      · have h1 : isRefEntry p = false := by
          cases p with
          | ref r => simp [entrySupported] at hp
          | param q => rfl
        have h2 : isUnsupportedEntry p = false := by
          cases p with
          | ref r => simp [entrySupported] at hp
          | param q =>
              simp only [entrySupported] at hp
              simp [isUnsupportedEntry, hp]
        rw [h1, h2]
        simp only [Bool.true_and, Bool.false_or]
        exact ih

/-- The loop reads the request only through its query and header maps. -/
theorem buildArgsLoop_congr_query_headers (d : Value → ParameterObject → Value)
    (params : List ParamSpecEntry) (req1 req2 : ParsedRequest)
    (pathParams : PathParameterValues) (body : Value)
    (hq : req1.query = req2.query) (hh : req1.headers = req2.headers) :
    buildArgsLoop d params req1 pathParams body =
      buildArgsLoop d params req2 pathParams body := by
  induction params with
  | nil => rfl
  | cons p rest ih =>
      cases p with
      | ref r => rfl
      | param spec =>
          have hv : paramArgValue spec req1 pathParams body =
              paramArgValue spec req2 pathParams body := by
            unfold paramArgValue
            rw [hq, hh]
          rw [buildArgsLoop, buildArgsLoop, hv, ih]

/-- Claim C1: for every route whose operation spec has only non-`$ref`
parameters with `in` among query/path/header/formData/body, whenever the
request body stage resolves (with parsed body `b`), `parseOperationArgs`
resolves with an argument list containing, for each parameter in spec
order, the deserialized value drawn from the location named by the
parameter's `in`: `request.query[name]` for query, `pathParams[name]` for
path, `request.headers[name.toLowerCase()]` for header, `body[name]` for
formData (undefined when no body was parsed), and the whole parsed body
for body. -/
theorem parseOperationArgs_resolves_per_location
    (deserialize : Value → ParameterObject → Value) (request : ParsedRequest)
    (route : ResolvedRoute) (b : Value)
    (hsup : specParamsSupported route.spec = true)
    (hload : loadRequestBodyIfNeeded route.spec request = Except.ok b) :
    parseOperationArgs deserialize request route =
      Except.ok (claimedArgs deserialize (route.spec.parameters.getD [])
        request route.pathParams b) := by
  unfold parseOperationArgs
  rw [hload]
  unfold buildOperationArguments
  unfold specParamsSupported at hsup
  exact buildArgsLoop_of_all_supported _ _ _ _ _ hsup

/-- Witness for C1: a request with one parameter per location resolves
with the five location-drawn values. -/
theorem parseOperationArgs_resolves_per_location_witness :
    specParamsSupported specAllLocations = true ∧
    loadRequestBodyIfNeeded specAllLocations reqJson =
      Except.ok (Value.obj [("field", Value.str "fv"), ("data", Value.num 7)]) ∧
    parseOperationArgs sampleDeserialize reqJson
        (ResolvedRoute.mk specAllLocations samplePathParams) =
      Except.ok [Value.str "hello", Value.str "42", Value.str "secret",
        Value.str "fv",
        Value.obj [("field", Value.str "fv"), ("data", Value.num 7)]] :=
  ⟨rfl, rfl, by
    have h := parseOperationArgs_resolves_per_location sampleDeserialize reqJson
      (ResolvedRoute.mk specAllLocations samplePathParams)
      (Value.obj [("field", Value.str "fv"), ("data", Value.num 7)]) rfl rfl
    exact h.trans rfl⟩

/-- Claim C9: for every operation spec whose parameters are all non-`$ref`
with a supported `in` (including an absent or empty parameter list), the
value `parseOperationArgs` resolves with is an array whose length equals
the number of parameter entries in the spec. -/
theorem parseOperationArgs_arg_count
    (deserialize : Value → ParameterObject → Value) (request : ParsedRequest)
    (route : ResolvedRoute) (b : Value)
    (hsup : specParamsSupported route.spec = true)
    (hload : loadRequestBodyIfNeeded route.spec request = Except.ok b) :
    ∃ args, parseOperationArgs deserialize request route = Except.ok args ∧
      args.length = (route.spec.parameters.getD []).length := by
  refine ⟨claimedArgs deserialize (route.spec.parameters.getD []) request
    route.pathParams b, ?_, ?_⟩
  · unfold parseOperationArgs
    rw [hload]
    unfold buildOperationArguments
    unfold specParamsSupported at hsup
    exact buildArgsLoop_of_all_supported _ _ _ _ _ hsup
  · unfold claimedArgs
    exact List.length_map _ _

/-- Witness for C9: an absent parameter list yields an empty argument
array. -/
theorem parseOperationArgs_arg_count_witness :
    ∃ args, parseOperationArgs sampleDeserialize reqJson
        (ResolvedRoute.mk (OperationObject.mk none) samplePathParams) =
      Except.ok args ∧ args.length = 0 :=
  parseOperationArgs_arg_count sampleDeserialize reqJson
    (ResolvedRoute.mk (OperationObject.mk none) samplePathParams)
    Value.undefined rfl rfl

/-- Claim C5: `buildOperationArguments` throws iff the parameter list
contains a `$ref` entry (the `$ref` `Error`) or a parameter whose `in` is
outside the supported set (`NotImplemented`); every thrown error is of one
of those two shapes; and for every spec whose parameters are absent,
empty, or all supported it returns an argument array without throwing. -/
theorem buildOperationArguments_throws_iff
    (deserialize : Value → ParameterObject → Value)
    (operationSpec : OperationObject) (request : ParsedRequest)
    (pathParams : PathParameterValues) (body : Value) :
    ((∃ e, buildOperationArguments deserialize operationSpec request pathParams
        body = Except.error e) ↔
      (hasRefParam operationSpec = true ∨ hasUnsupportedIn operationSpec = true))
    ∧ (∀ e, buildOperationArguments deserialize operationSpec request pathParams
        body = Except.error e →
        e = refNotSupportedError ∨
          ∃ s, supportedIn s = false ∧ e = notImplementedError s)
    ∧ (specParamsSupported operationSpec = true →
        ∃ args, buildOperationArguments deserialize operationSpec request
          pathParams body = Except.ok args) := by
  have hok := buildArgsLoop_isOk deserialize (operationSpec.parameters.getD [])
    request pathParams body
  unfold buildOperationArguments
  refine ⟨⟨?_, ?_⟩, ?_, ?_⟩
  · rintro ⟨e, he⟩
    have hfalse : (operationSpec.parameters.getD []).all entrySupported = false := by
      rw [← hok, he]
      rfl
    have := (all_entrySupported_false_iff _).mp hfalse
    unfold hasRefParam hasUnsupportedIn
    exact this
  · intro h
    have hfalse : (operationSpec.parameters.getD []).all entrySupported = false := by
      apply (all_entrySupported_false_iff _).mpr
      unfold hasRefParam hasUnsupportedIn at h
      exact h
    cases hres : buildArgsLoop deserialize (operationSpec.parameters.getD [])
        request pathParams body with
    | ok args =>
        rw [hres, hfalse] at hok
        exact absurd hok (by simp [Except.isOk, Except.toBool])
    | error e => exact ⟨e, rfl⟩
  · intro e he
    exact buildArgsLoop_error_shape _ _ _ _ _ _ he
  · intro hsup
    unfold specParamsSupported at hsup
    exact ⟨claimedArgs deserialize (operationSpec.parameters.getD []) request
      pathParams body, buildArgsLoop_of_all_supported _ _ _ _ _ hsup⟩

/-- Witness for C5: a `$ref` entry throws, a cookie parameter throws, and
an all-supported spec returns an array. -/
theorem buildOperationArguments_throws_iff_witness :
    (∃ e, buildOperationArguments sampleDeserialize specWithRef reqJson
      samplePathParams Value.undefined = Except.error e) ∧
    (∃ e, buildOperationArguments sampleDeserialize specWithCookieParam reqJson
      samplePathParams Value.undefined = Except.error e) ∧
    (∃ args, buildOperationArguments sampleDeserialize specAllLocations reqJson
      samplePathParams Value.undefined = Except.ok args) := by
  refine ⟨?_, ?_, ?_⟩
  · exact (buildOperationArguments_throws_iff sampleDeserialize specWithRef
      reqJson samplePathParams Value.undefined).1.mpr (Or.inl rfl)
  · exact (buildOperationArguments_throws_iff sampleDeserialize
      specWithCookieParam reqJson samplePathParams Value.undefined).1.mpr
      (Or.inr rfl)
  · exact (buildOperationArguments_throws_iff sampleDeserialize specAllLocations
      reqJson samplePathParams Value.undefined).2.2 rfl

/-- Claim C7: argument resolution is deterministic — two invocations of
`buildOperationArguments` with equal operation specs, equal request query
and headers, equal path parameters and equal parsed bodies return equal
argument arrays; no other state influences the result. -/
theorem buildOperationArguments_deterministic
    (deserialize : Value → ParameterObject → Value)
    (spec1 spec2 : OperationObject) (req1 req2 : ParsedRequest)
    (pp1 pp2 : PathParameterValues) (body1 body2 : Value)
    (hspec : spec1 = spec2) (hq : req1.query = req2.query)
    (hh : req1.headers = req2.headers) (hpp : pp1 = pp2) (hb : body1 = body2) :
    buildOperationArguments deserialize spec1 req1 pp1 body1 =
      buildOperationArguments deserialize spec2 req2 pp2 body2 := by
  subst hspec
  subst hpp
  subst hb
  unfold buildOperationArguments
  exact buildArgsLoop_congr_query_headers _ _ _ _ _ _ hq hh

/-- Witness for C7: two requests equal in query and headers but with
different JSON-parser outcomes give the same argument array. -/
theorem buildOperationArguments_deterministic_witness :
    buildOperationArguments sampleDeserialize specAllLocations reqJson
        samplePathParams Value.undefined =
      buildOperationArguments sampleDeserialize specAllLocations
        reqJsonOtherBody samplePathParams Value.undefined :=
  buildOperationArguments_deterministic sampleDeserialize specAllLocations
    specAllLocations reqJson reqJsonOtherBody samplePathParams samplePathParams
    Value.undefined Value.undefined rfl rfl rfl rfl rfl

/-- The instrumented parse flag equals "a body parameter exists and the
content-type check passes". -/
theorem bodyWasParsed_eq (operationSpec : OperationObject)
    (request : ParsedRequest) :
    bodyWasParsed operationSpec request =
      (hasArgumentsFromBody operationSpec && !(contentTypeRejected request)) := by
  unfold bodyWasParsed contentTypeRejected
  cases hb : hasArgumentsFromBody operationSpec
  · simp
  · cases hct : getContentType request with
    | none => simp
    | some ct => cases hcond : (ct != "" && !(containsJson ct)) <;> simp [hcond]

/-- Branch-free shape of `loadRequestBodyIfNeeded`. -/
theorem loadRequestBody_eq (operationSpec : OperationObject)
    (request : ParsedRequest) :
    loadRequestBodyIfNeeded operationSpec request =
      (if hasArgumentsFromBody operationSpec then
        (if contentTypeRejected request then
          Except.error
            (unsupportedMediaTypeError ((getContentType request).getD ""))
         else parseJsonOutcome request)
       else Except.ok Value.undefined) := by
  unfold loadRequestBodyIfNeeded contentTypeRejected
  cases hb : hasArgumentsFromBody operationSpec
  · simp
  · cases hct : getContentType request with
    | none => simp
    | some ct => cases hcond : (ct != "" && !(containsJson ct)) <;> simp [hcond]

/-- Counterexample to claim C3 as stated: the spec contains a body
parameter, yet on a request with content type `application/xml` the body
is never read or JSON-parsed — the call rejects with 415 before reaching
the parser — so "parses iff a formData/body parameter exists" fails. -/
theorem bodyParsed_iff_bodyParam_counterexample :
    hasArgumentsFromBody specBodyOnly = true ∧
    bodyWasParsed specBodyOnly reqXml = false ∧
    loadRequestBodyIfNeeded specBodyOnly reqXml =
      Except.error (unsupportedMediaTypeError "application/xml") :=
  ⟨rfl, rfl, rfl⟩

/-- Claim C3 (amended): the JSON parser runs iff the spec contains a
non-`$ref` formData/body parameter AND the content-type check passes;
when no such parameter exists, `loadRequestBodyIfNeeded` resolves with
undefined for every request (it inspects neither the body nor the
content-type header); whenever the parser runs, the result is exactly the
parser's outcome. -/
theorem bodyParsed_iff_needed_and_contentTypeOk
    (operationSpec : OperationObject) (request : ParsedRequest) :
    (bodyWasParsed operationSpec request =
      (hasArgumentsFromBody operationSpec && !(contentTypeRejected request)))
    ∧ (hasArgumentsFromBody operationSpec = false →
        loadRequestBodyIfNeeded operationSpec request = Except.ok Value.undefined)
    ∧ (bodyWasParsed operationSpec request = true →
        loadRequestBodyIfNeeded operationSpec request = parseJsonOutcome request) := by
  refine ⟨bodyWasParsed_eq _ _, ?_, ?_⟩
  · intro h
    rw [loadRequestBody_eq, h]
    rfl
  · intro h
    rw [bodyWasParsed_eq] at h
    rcases Bool.and_eq_true_iff.mp h with ⟨h1, h2⟩
    have h2' : contentTypeRejected request = false := by simpa using h2
    rw [loadRequestBody_eq, h1, h2']
    rfl

/-- Witness for C3 (amended): a spec without body parameters resolves
with undefined on an XML request; a spec with a body parameter on a JSON
request resolves with the parser's outcome. -/
theorem bodyParsed_iff_needed_and_contentTypeOk_witness :
    loadRequestBodyIfNeeded specQueryOnly reqXml = Except.ok Value.undefined ∧
    loadRequestBodyIfNeeded specBodyOnly reqJson = parseJsonOutcome reqJson :=
  ⟨(bodyParsed_iff_needed_and_contentTypeOk specQueryOnly reqXml).2.1 rfl,
   (bodyParsed_iff_needed_and_contentTypeOk specBodyOnly reqJson).2.2 rfl⟩

/-- Counterexample to claim C4 as stated: the content-type header is
defined (the empty string) and does not contain "json", yet the call
resolves — the code tests truthiness, not definedness, of the content
type. -/
theorem loadBody_reject_iff_counterexample :
    hasArgumentsFromBody specBodyOnly = true ∧
    getContentType reqEmptyContentType = some "" ∧
    containsJson "" = false ∧
    loadRequestBodyIfNeeded specBodyOnly reqEmptyContentType =
      Except.ok (Value.obj [("a", Value.num 1)]) :=
  ⟨rfl, rfl, rfl, rfl⟩

/-- Claim C4 (amended): with a body-reading parameter present,
`loadRequestBodyIfNeeded` rejects iff the content type is truthy (defined
and non-empty) and does not contain "json" — an UnsupportedMediaType
(415) rejection, the body never parsed — or the content-type check passes
and JSON parsing fails, a rejection carrying status code 400. -/
theorem loadRequestBody_rejection
    (operationSpec : OperationObject) (request : ParsedRequest)
    (hb : hasArgumentsFromBody operationSpec = true) :
    ((∃ e, loadRequestBodyIfNeeded operationSpec request = Except.error e) ↔
      (contentTypeRejected request = true ∨
        ∃ e0, request.jsonBody = Except.error e0))
    ∧ (contentTypeRejected request = true →
        bodyWasParsed operationSpec request = false ∧
        ∃ ct, getContentType request = some ct ∧
          loadRequestBodyIfNeeded operationSpec request =
            Except.error (unsupportedMediaTypeError ct) ∧
          (unsupportedMediaTypeError ct).statusCodeOf = some 415)
    ∧ (∀ e0, contentTypeRejected request = false →
        request.jsonBody = Except.error e0 →
        loadRequestBodyIfNeeded operationSpec request =
          Except.error (setStatusCode400 e0) ∧
        (setStatusCode400 e0).statusCodeOf = some 400) := by
  refine ⟨?_, ?_, ?_⟩
  · rw [loadRequestBody_eq, hb]
    cases hctr : contentTypeRejected request
    · constructor
      · rintro ⟨e, he⟩
        right
        unfold parseJsonOutcome at he
        cases hj : request.jsonBody with
        | ok v =>
            rw [hj] at he
            exact absurd he (by simp)
        | error e0 => exact ⟨e0, rfl⟩
      · rintro (h | ⟨e0, hj⟩)
        · exact absurd h (by simp)
        · exact ⟨setStatusCode400 e0, by unfold parseJsonOutcome; rw [hj]; rfl⟩
    · constructor
      · intro _
        exact Or.inl rfl
      · intro _
        exact ⟨unsupportedMediaTypeError ((getContentType request).getD ""), rfl⟩
  · intro hctr
    refine ⟨?_, ?_⟩
    · rw [bodyWasParsed_eq, hctr, hb]
      rfl
    · have hctr0 := hctr
      unfold contentTypeRejected at hctr0
      cases hct : getContentType request with
      | none =>
          rw [hct] at hctr0
          exact absurd hctr0 (by simp)
      | some ct =>
          refine ⟨ct, rfl, ?_, rfl⟩
          rw [loadRequestBody_eq, hb, hctr, hct]
          rfl
  · intro e0 hctr hj
    refine ⟨?_, by cases e0 <;> rfl⟩
    rw [loadRequestBody_eq, hb, hctr]
    unfold parseJsonOutcome
    rw [hj]
    rfl

/-- Witness for C4 (amended): the XML request is rejected with the 415
error, and the unparseable-JSON request is rejected with status 400. -/
theorem loadRequestBody_rejection_witness :
    loadRequestBodyIfNeeded specBodyOnly reqXml =
      Except.error (unsupportedMediaTypeError "application/xml") ∧
    loadRequestBodyIfNeeded specBodyOnly reqBadJson =
      Except.error (JsError.httpError 400 "Could not parse") := by
  constructor
  · obtain ⟨-, ct, hct, heq, -⟩ :=
      (loadRequestBody_rejection specBodyOnly reqXml rfl).2.1 rfl
    have hct2 : ct = "application/xml" := by
      have h2 : some ct = some "application/xml" := by rw [← hct]; rfl
      exact Option.some.inj h2
    rw [hct2] at heq
    exact heq
  · exact ((loadRequestBody_rejection specBodyOnly reqBadJson rfl).2.2
      (JsError.error "Could not parse") rfl rfl).1

/-- Claim C2: resolving the controller-method-metadata binding through
`AuthMetadataProvider` for a class/method pair bound into the DI context
returns the authentication metadata recorded by `@authenticate` on that
method — an object with the strategy name and options passed to the
decorator. -/
theorem authMetadataProvider_returns_decorator_metadata
    (ctx : DIContext) (strategyName : String) (options : List (String × Value))
    (h : ctx.controllerClass.authMetadata.lookup ctx.controllerMethodName =
      some (authenticate strategyName options)) :
    resolveControllerMethodMeta ctx =
      some (AuthenticationMetadata.mk strategyName options) := by
  unfold resolveControllerMethodMeta authMetadataProviderValue
  rw [h]
  rfl

/-- Witness for C2: the test file's `TestController` with
`@authenticate('my-strategy', {option1: 'value1', option2: 'value2'})` on
`whoAmI`. -/
theorem authMetadataProvider_returns_decorator_metadata_witness :
    resolveControllerMethodMeta (DIContext.mk testController "whoAmI") =
      some (AuthenticationMetadata.mk "my-strategy"
        [("option1", Value.str "value1"), ("option2", Value.str "value2")]) :=
  authMetadataProvider_returns_decorator_metadata
    (DIContext.mk testController "whoAmI") "my-strategy"
    [("option1", Value.str "value1"), ("option2", Value.str "value2")] rfl

/-- Claim C6: for a class/method pair with no `@authenticate` metadata,
resolving the controller-method-metadata binding yields undefined rather
than raising an error. -/
theorem authMetadataProvider_undefined_without_decorator (ctx : DIContext)
    (h : ctx.controllerClass.authMetadata.lookup ctx.controllerMethodName =
      none) :
    resolveControllerMethodMeta ctx = none := by
  unfold resolveControllerMethodMeta authMetadataProviderValue
  exact h

/-- Witness for C6: the test file's `ControllerWithNoMetadata`. -/
theorem authMetadataProvider_undefined_without_decorator_witness :
    resolveControllerMethodMeta
      (DIContext.mk controllerWithNoMetadata "whoAmI") = none :=
  authMetadataProvider_undefined_without_decorator
    (DIContext.mk controllerWithNoMetadata "whoAmI") rfl
